import Mathlib

/-
Verification of the Hardcover integration of the autocaliweb repository:
a shallow embedding, in Lean 4, of the progress-sync client
(cps/services/hardcover.py) and the metadata search provider
(cps/metadata_provider/hardcover.py), with theorems settling the frozen
claims about identifier resolution, reading-progress reconciliation and
metadata search.

JSON payloads are modelled by the inductive type JValue; Python runtime
errors (AttributeError, TypeError, KeyError, IndexError, ValueError, the
requests transport errors, and bare Exception) are modelled by Except
over PyErr; the remote GraphQL endpoint is a parameter mapping each
issued call to a response, and every client operation also returns the
list of calls it issued, in order, so that temporal claims about which
mutations are sent, and in what order, can be stated as trace equalities.
-/

namespace Acw

/-- A JSON value as produced by response.json. Numbers are integers, which
covers every field the code reads (ids, status ids, page counts). -/
inductive JValue where
  | null
  | bool (b : Bool)
  | num (n : Int)
  | str (s : String)
  | arr (elems : List JValue)
  | obj (members : List (String × JValue))
deriving Inhabited, Repr

/-- Modelled Python runtime errors. -/
inductive PyErr where
  | attributeError (msg : String)
  | typeError (msg : String)
  | keyError (msg : String)
  | indexError (msg : String)
  | valueError (msg : String)
  | requestError (msg : String)
  | generalError (msg : String)
deriving Repr, DecidableEq

/-- First binding of a key in an association list (Python dict lookup). -/
def jLookup : List (String × JValue) → String → Option JValue
  | [], _ => none
  | (k, v) :: rest, key => if k = key then some v else jLookup rest key

/-- Python dict assignment d[k] = v: replace in place if the key exists,
otherwise append (insertion order preserved). -/
def pyInsert (m : List (String × JValue)) (k : String) (v : JValue) :
    List (String × JValue) :=
  if (jLookup m k).isSome then
    m.map (fun kv => if kv.1 = k then (k, v) else kv)
  else
    m ++ [(k, v)]

/-- Python identity test v is None (JSON null and Python None coincide). -/
def JValue.isNull : JValue → Bool
  | .null => true
  | _ => false

/-- Python s.startswith(p), via character lists so that it evaluates in
the kernel. -/
def pyStartsWith (s p : String) : Bool := p.toList.isPrefixOf s.toList

/-- Python s.split(sep) for a one-character separator, via character
lists so that it evaluates in the kernel. -/
def pySplit (s : String) (sep : Char) : List String :=
  (s.toList.splitOn sep).map (fun l => String.mk l)

/-- Python truthiness of a JSON value. -/
def truthy : JValue → Bool
  | .null => false
  | .bool b => b
  | .num n => n != 0
  | .str s => s ≠ ""
  | .arr xs => !xs.isEmpty
  | .obj m => !m.isEmpty

/-- Python v.get(k, d): dict lookup with default; AttributeError when the
receiver is not a dict (in particular when it is None). -/
def pyGet (v : JValue) (k : String) (d : JValue) : Except PyErr JValue :=
  match v with
  | .obj m => .ok ((jLookup m k).getD d)
  | _ => .error (.attributeError "object has no attribute get")

/-- Python v[k] for a string key: KeyError when a dict lacks the key,
TypeError when the receiver is not a dict. -/
def pySubscript (v : JValue) (k : String) : Except PyErr JValue :=
  match v with
  | .obj m =>
    match jLookup m k with
    | some w => .ok w
    | none => .error (.keyError k)
  | _ => .error (.typeError "object is not subscriptable")

/-- Python v[i] for a numeric index. -/
def pyIndex (v : JValue) (i : Nat) : Except PyErr JValue :=
  match v with
  | .arr xs =>
    match xs.get? i with
    | some w => .ok w
    | none => .error (.indexError "list index out of range")
  | .str s =>
    match s.toList.get? i with
    | some c => .ok (.str (String.mk [c]))
    | none => .error (.indexError "string index out of range")
  | .obj _ => .error (.keyError "int key")
  | _ => .error (.typeError "object is not subscriptable")

/-- Python next(iter(v), None): first element of a list, first character of
a string, first key of a dict; TypeError when not iterable. -/
def pyFirst (v : JValue) : Except PyErr JValue :=
  match v with
  | .arr xs => .ok (xs.headD .null)
  | .str s =>
    .ok (match s.toList with
      | [] => .null
      | c :: _ => .str (String.mk [c]))
  | .obj m =>
    .ok (match m with
      | [] => .null
      | (k, _) :: _ => .str k)
  | _ => .error (.typeError "object is not iterable")

/-- Python iteration (for x in v) as the list of produced elements. -/
def pyIterElems (v : JValue) : Except PyErr (List JValue) :=
  match v with
  | .arr xs => .ok xs
  | .str s => .ok (s.toList.map (fun c => JValue.str (String.mk [c])))
  | .obj m => .ok (m.map (fun kv => JValue.str kv.1))
  | _ => .error (.typeError "object is not iterable")

/-- Python membership test (k in v) for a string k. -/
def pyContains (v : JValue) (k : String) : Except PyErr Bool :=
  match v with
  | .obj m => .ok (jLookup m k).isSome
  | .arr xs =>
    .ok (xs.any (fun x => match x with
      | .str s => s = k
      | _ => false))
  | .str s => .ok (k = "" || (s.splitOn k).length ≥ 2)
  | _ => .error (.typeError "argument is not a container")

/-- Python len(v). -/
def pyLen (v : JValue) : Except PyErr Nat :=
  match v with
  | .str s => .ok s.length
  | .arr xs => .ok xs.length
  | .obj m => .ok m.length
  | _ => .error (.typeError "object has no len")

/-- Python int(v): identity on ints, booleans as 0 or 1, digit strings
parsed, everything else a TypeError or ValueError. -/
def pyInt (v : JValue) : Except PyErr Int :=
  match v with
  | .num n => .ok n
  | .bool b => .ok (if b then 1 else 0)
  | .str s =>
    match s.toInt? with
    | some n => .ok n
    | none => .error (.valueError "invalid literal for int")
  | _ => .error (.typeError "int argument must be a number")

/-- Numeric coercion for arithmetic; TypeError for non-numbers, with
Python booleans counting as 0 or 1. -/
def pyToRat (v : JValue) : Except PyErr Rat :=
  match v with
  | .num n => .ok (n : Rat)
  | .bool b => .ok (if b then 1 else 0)
  | _ => .error (.typeError "unsupported operand type")

/-- Python equality v == n against an int literal: numbers compare by
value, booleans compare as 0 or 1, every other JSON value is unequal. -/
def jEqInt (v : JValue) (n : Int) : Bool :=
  match v with
  | .num m => m == n
  | .bool b => (if b then (1 : Int) else 0) == n
  | _ => false

/-- Python isinstance(v, int): true for ints and for booleans. -/
def pyIsInt : JValue → Bool
  | .num _ => true
  | .bool _ => true
  | _ => false

/-- The integer carried by a number or boolean. -/
def pyIntVal : JValue → Int
  | .num n => n
  | .bool b => if b then 1 else 0
  | _ => 0

/-- Python round() on an exact rational: round half to even. -/
def roundHalfToEven (q : Rat) : Int :=
  let f := Int.floor q
  let r := q - (f : Rat)
  if r < 1/2 then f
  else if 1/2 < r then f + 1
  else if f % 2 = 0 then f else f + 1


/-- A GraphQL operation issued by HardcoverClient.execute, identified by
the fixed query template the source builds and the variables it binds.
Operations beginning with update or insert are the mutations; the others
are queries. -/
inductive Call where
  | userBookByEdition (v : JValue)
  | userBookById (v : JValue)
  | userBookBySlug (v : JValue)
  | userBookNoKey
  | bookBySlugIsbn (slug isbn : JValue)
  | bookBySlug (slug : JValue)
  | insertUserBook (bookId : Int) (editionId : Option Int) (statusId : Int)
      (privacy : JValue)
  | updateUserBook (id : JValue) (statusId : Int)
  | insertUserBookRead (userBookId : Int) (pages : Int) (editionId : Option Int)
      (startedAt : String)
  | updateUserBookRead (readId : Int) (pages : Int) (editionId : Int)
      (startedAt : JValue) (finishedAt : Option String)

/-- Whether a call is one of the three mutation templates of the source
(update_user_book, insert_user_book, insert_user_book_read,
update_user_book_read); the rest are read-only queries. -/
def Call.isMutation : Call → Bool
  | .insertUserBook _ _ _ _ => true
  | .updateUserBook _ _ => true
  | .insertUserBookRead _ _ _ _ => true
  | .updateUserBookRead _ _ _ _ _ => true
  | _ => false

/-- Whether a call is the status-change mutation (update_user_book). -/
def Call.isStatusChange : Call → Bool
  | .updateUserBook _ _ => true
  | _ => false

/-- Whether a call is a page-level or status-level write: a status change,
a read-session creation, or a read-session update. -/
def Call.isPageOrStatusWrite : Call → Bool
  | .updateUserBook _ _ => true
  | .insertUserBookRead _ _ _ _ => true
  | .updateUserBookRead _ _ _ _ _ => true
  | _ => false

/-- Outcome of one HTTP round trip to the GraphQL endpoint:
requests.post raising, raise_for_status raising on a non-2xx status,
response.json failing to decode, or a decoded JSON body. -/
inductive RemoteResp where
  | netError (msg : String)
  | httpError (code : Nat)
  | badJson
  | ok (body : JValue)

/-- The remote endpoint, as a fixed mapping from issued call to response
(the unchanged-remote-state model). -/
abbrev Remote := Call → RemoteResp

/-- A client computation: its result or raised error, together with the
ordered list of remote calls it issued. -/
abbrev PyM (α : Type) := Except PyErr α × List Call

/-- Sequencing of client computations, concatenating their call traces and
propagating a raised error. -/
def PyM.bind {α β : Type} (x : PyM α) (f : α → PyM β) : PyM β :=
  match x with
  | (.error e, t) => (.error e, t)
  | (.ok a, t) =>
    match f a with
    | (r, t2) => (r, t ++ t2)

/-- Lift an error-or-value that issues no remote call. -/
def PyM.lift {α : Type} (x : Except PyErr α) : PyM α := (x, [])

namespace HardcoverClient

/-- HardcoverClient.execute: POST the operation, turn a non-2xx status
into a bare Exception, propagate a JSON decode failure as ValueError,
turn a GraphQL errors array into a bare Exception, and return the data
member of the body (empty dict when absent). -/
def execute (remote : Remote) (c : Call) : PyM JValue :=
  let r : Except PyErr JValue :=
    match remote c with
    | .netError m => .error (.requestError m)
    | .httpError _ => .error (.generalError "HTTP error occurred")
    | .badJson => .error (.valueError "response body is not JSON")
    | .ok body =>
      match pyContains body "errors" with
      | .error e => .error e
      | .ok true => .error (.generalError "GraphQL error")
      | .ok false =>
        match pyGet body "data" (.obj []) with
        | .error e => .error e
        | .ok d => .ok d
  (r, [c])

/-- The identifiers mapping (kind to value), as the Python dict the client
passes around. -/
abbrev IdDict := List (String × JValue)

/-- Dict lookup with None default, on the identifiers mapping. -/
def idGet (ids : IdDict) (k : String) : JValue :=
  (jLookup ids k).getD .null

/-- Python membership test k in ids on the identifiers mapping. -/
def idHas (ids : IdDict) (k : String) : Bool :=
  (jLookup ids k).isSome

/-- The identifiers argument of update_reading_progress: either a mapping,
or a sequence of identifier objects each carrying a type and a val. -/
inductive IdentInput where
  | dict (m : List (String × JValue))
  | objs (l : List (String × JValue))

/-- The filtering comprehensions of parse_identifiers: keep only kinds
prefixed hardcover or exactly isbn; the sequence form builds a dict in
first-seen key order with later values overwriting. -/
def filterIds : IdentInput → IdDict
  | .dict m => m.filter (fun kv => pyStartsWith kv.1 "hardcover" || kv.1 == "isbn")
  | .objs l =>
    l.foldl
      (fun d kv =>
        if pyStartsWith kv.1 "hardcover" || kv.1 == "isbn" then
          pyInsert d kv.1 kv.2
        else d)
      []

/-- HardcoverClient.get_book_id(slug, isbn): one remote query (the
slug+isbn form when a truthy 13-character isbn is given, else the slug
form), ValueError when the books list comes back empty, and the pair of
the book id and the matched edition id (None when no edition matched). -/
def get_book_id (remote : Remote) (slug : JValue) (isbn : JValue) :
    PyM (JValue × JValue) :=
  let cond : Except PyErr Bool :=
    if truthy isbn then
      match pyLen isbn with
      | .error e => .error e
      | .ok n => .ok (n == 13)
    else .ok false
  match cond with
  | .error e => PyM.lift (.error e)
  | .ok useIsbn =>
    let c := if useIsbn then Call.bookBySlugIsbn slug isbn else Call.bookBySlug slug
    PyM.bind (execute remote c) (fun data =>
      PyM.lift (do
        let books ← pyGet data "books" (.arr [])
        if !truthy books then
          Except.error (.valueError "book with slug not found")
        else do
          let book ← pyIndex books 0
          let bookId ← pyGet book "id" .null
          let editions ← pyGet book "editions" (.arr [])
          if truthy editions then do
            let e0 ← pyIndex editions 0
            let editionId ← pySubscript e0 "id"
            pure (bookId, editionId)
          else
            pure (bookId, JValue.null)))

/-- HardcoverClient.parse_identifiers: filter the input to hardcover and
isbn kinds; when hardcover-id is absent, require a truthy slug (returning
the partial set unresolved when it is missing), resolve slug and optional
isbn through get_book_id, and populate hardcover-id and, when an edition
matched, hardcover-edition. -/
def parse_identifiers (remote : Remote) (input : IdentInput) : PyM IdDict :=
  let ids := filterIds input
  if idHas ids "hardcover-id" then PyM.lift (.ok ids)
  else
    let slug := idGet ids "hardcover"
    let isbn := idGet ids "isbn"
    if !truthy slug then PyM.lift (.ok ids)
    else
      PyM.bind (get_book_id remote slug isbn) (fun bk =>
        let ids1 := pyInsert ids "hardcover-id" bk.1
        let ids2 :=
          if bk.2.isNull then ids1
          else pyInsert ids1 "hardcover-edition" bk.2
        PyM.lift (.ok ids2))

/-- HardcoverClient.get_user_book: pick the lookup key (edition id, then
book id, then slug, else the degenerate keyless query the source builds
from an empty template), issue the single query, and return the first
user book of me[0], or None when there is none. -/
def get_user_book (remote : Remote) (ids : IdDict) : PyM JValue :=
  let c :=
    if idHas ids "hardcover-edition" then
      Call.userBookByEdition (idGet ids "hardcover-edition")
    else if idHas ids "hardcover-id" then
      Call.userBookById (idGet ids "hardcover-id")
    else if idHas ids "hardcover" then
      Call.userBookBySlug (idGet ids "hardcover")
    else Call.userBookNoKey
  PyM.bind (execute remote c) (fun data =>
    PyM.lift (do
      let me ← pyGet data "me" .null
      let me0 ← pyIndex me 0
      let ubs ← pyGet me0 "user_books" .null
      pyFirst ubs))

/-- HardcoverClient.change_book_status: one update_user_book mutation,
returning response.update_user_book.user_book through defaulted gets. -/
def change_book_status (remote : Remote) (book : JValue) (status : Int) :
    PyM JValue :=
  match pyGet book "id" .null with
  | .error e => PyM.lift (.error e)
  | .ok idv =>
    PyM.bind (execute remote (Call.updateUserBook idv status)) (fun data =>
      PyM.lift (do
        let u ← pyGet data "update_user_book" (.obj [])
        pyGet u "user_book" (.obj [])))

/-- HardcoverClient.add_book: re-run parse_identifiers on the given
mapping, then one insert_user_book mutation with int-converted book and
edition ids, the requested status and the client privacy setting,
returning response.insert_user_book.user_book through defaulted gets. -/
def add_book (remote : Remote) (privacy : JValue) (ids0 : IdDict)
    (status : Int) : PyM JValue :=
  PyM.bind (parse_identifiers remote (.dict ids0)) (fun ids =>
    match pyInt (idGet ids "hardcover-id") with
    | .error e => PyM.lift (.error e)
    | .ok bookId =>
      let edV := idGet ids "hardcover-edition"
      let edR : Except PyErr (Option Int) :=
        if truthy edV then
          match pyInt edV with
          | .error e => .error e
          | .ok n => .ok (some n)
        else .ok none
      match edR with
      | .error e => PyM.lift (.error e)
      | .ok editionId =>
        PyM.bind (execute remote
            (Call.insertUserBook bookId editionId status privacy)) (fun data =>
          PyM.lift (do
            let u ← pyGet data "insert_user_book" (.obj [])
            pyGet u "user_book" (.obj []))))

/-- HardcoverClient.add_read: one insert_user_book_read mutation carrying
the user-book id, the page counter, the edition id when truthy, and today
as the start date (and no finish date), returning
response.insert_user_book_read.user_book_read through undefaulted gets. -/
def add_read (remote : Remote) (today : String) (book : JValue)
    (pages : Int) : PyM JValue :=
  let vars : Except PyErr (Int × Option Int) := do
    let idv ← pyGet book "id" .null
    let ubId ← pyInt idv
    let ed ← pyGet book "edition" .null
    let edIdV ← pyGet ed "id" .null
    if truthy edIdV then do
      let n ← pyInt edIdV
      pure (ubId, some n)
    else
      pure (ubId, none)
  match vars with
  | .error e => PyM.lift (.error e)
  | .ok (ubId, editionId) =>
    PyM.bind (execute remote
        (Call.insertUserBookRead ubId pages editionId today)) (fun data =>
      PyM.lift (do
        let u ← pyGet data "insert_user_book_read" .null
        pyGet u "user_book_read" .null))

/-- The evaluation of the logging argument book.get("book", dict()).get("title")
that the source passes to log.info: the value is discarded but an
AttributeError it raises (book being None, say) propagates. -/
def logTitle (book : JValue) : Except PyErr Unit := do
  let b ← pyGet book "book" (.obj [])
  let _ ← pyGet b "title" .null
  pure ()

/-- HardcoverClient.update_reading_progress, transcribed branch by branch:
resolve identifiers; when the resolved mapping is nonempty, look the user
book up; create it in Reading status when missing (evaluating the logging
lookup on the result); return when the created object is None; transition
to Reading when the status is not 2 and progress is not 100; return when
the status is 3 and progress is 100; then, when the edition page count is
truthy, either create a read session (no open one) or update the open one,
with the finish date set to today exactly when progress is 100, preceded
in that case by the transition to Read. today stands for
datetime.now().strftime of the current day. -/
def update_reading_progress (remote : Remote) (privacy : JValue)
    (today : String) (identifiers : IdentInput) (progress : Int) : PyM Unit :=
  PyM.bind (parse_identifiers remote identifiers) (fun ids =>
    if ids.length != 0 then
      PyM.bind (get_user_book remote ids) (fun book0 =>
        PyM.bind
          (if !truthy book0 then
            PyM.bind (add_book remote privacy ids 2) (fun b =>
              PyM.bind (PyM.lift (logTitle b)) (fun _ => PyM.lift (.ok b)))
          else PyM.lift (.ok book0))
          (fun book1 =>
            if book1.isNull then PyM.lift (.ok ())
            else
              PyM.bind (PyM.lift (pyGet book1 "status_id" .null)) (fun st1 =>
                PyM.bind
                  (if !jEqInt st1 2 && progress != 100 then
                    PyM.bind (change_book_status remote book1 2) (fun b =>
                      PyM.bind (PyM.lift (logTitle b)) (fun _ =>
                        PyM.lift (.ok b)))
                  else PyM.lift (.ok book1))
                  (fun book2 =>
                    PyM.bind (PyM.lift (pyGet book2 "status_id" .null))
                      (fun st2 =>
                      if jEqInt st2 3 && progress == 100 then PyM.lift (.ok ())
                      else
                        PyM.bind
                          (PyM.lift (do
                            let ed ← pyGet book2 "edition" (.obj [])
                            pyGet ed "pages" (.num 0)))
                          (fun pages =>
                          if !truthy pages then PyM.lift (.ok ())
                          else
                            PyM.bind
                              (PyM.lift (do
                                let pr ← pyToRat pages
                                pure (roundHalfToEven
                                  (pr * ((progress : Rat) / 100)))))
                              (fun pagesRead =>
                              PyM.bind
                                (PyM.lift (do
                                  let ubr ← pyGet book2 "user_book_reads" .null
                                  pyFirst ubr))
                                (fun read =>
                                if !truthy read then
                                  PyM.bind (add_read remote today book2 pagesRead)
                                    (fun _ => PyM.lift (.ok ()))
                                else
                                  PyM.bind
                                    (PyM.lift (do
                                      let rid ← pyGet read "id" .null
                                      let readId ← pyInt rid
                                      let ed ← pyGet book2 "edition" .null
                                      let eidV ← pyGet ed "id" .null
                                      let editionId ← pyInt eidV
                                      let startedAt ←
                                        pyGet read "started_at" (.str today)
                                      pure (readId, editionId, startedAt)))
                                    (fun v =>
                                    let finishedAt : Option String :=
                                      if progress == 100 then some today else none
                                    PyM.bind
                                      (if progress == 100 then
                                        PyM.bind
                                          (change_book_status remote book2 3)
                                          (fun _ => PyM.lift (logTitle book2))
                                      else PyM.lift (.ok ()))
                                      (fun _ =>
                                      PyM.bind
                                        (execute remote
                                          (Call.updateUserBookRead v.1 pagesRead
                                            v.2.1 v.2.2 finishedAt))
                                        (fun _ => PyM.lift (.ok ()))))))))))))
    else PyM.lift (.ok ()))

end HardcoverClient

/-- Python a or b on JSON values: the first operand when truthy, else the
second. -/
def pyOr (a b : JValue) : JValue := if truthy a then a else b

/-- Truthiness of an optional string (None and the empty string are
falsy). -/
def strTruthy : Option String → Bool
  | some s => s ≠ ""
  | none => false

/-- Python a or b on optional strings. -/
def pyOrStr (a b : Option String) : Option String :=
  if strTruthy a then a else b

/-- Python str() of a JSON value; container reprs are abbreviated, which
no claim exercises (the code only interpolates slugs and ids into URLs). -/
def jToString : JValue → String
  | .null => "None"
  | .bool b => if b then "True" else "False"
  | .num n => toString n
  | .str s => s
  | .arr _ => "[...]"
  | .obj _ => "dict"

namespace Hardcover

/-- The provider source descriptor attached to every record. -/
structure MetaSourceInfo where
  id : String
  description : String
  link : String
deriving Repr, DecidableEq

/-- The normalized metadata record the provider emits. Fields copied
straight out of JSON keep type JValue; url and format are strings the
code itself builds. rating is never assigned by this provider and keeps
its dataclass default. -/
structure MetaRecord where
  id : JValue
  title : JValue
  authors : JValue
  url : String
  source : MetaSourceInfo
  series : JValue
  cover : JValue
  description : JValue
  publishedDate : JValue
  series_index : JValue
  tags : JValue
  identifiers : List (String × JValue)
  publisher : JValue := .str ""
  languages : List JValue := []
  rating : JValue := .num 0
  format : Option String := none
deriving Repr

/-- Hardcover.FORMATS: the fixed reading-format lookup table. -/
def FORMATS : List String := ["", "Physical Book", "", "", "E-Book"]

/-- Hardcover._safe_get: walk a key path, substituting the default as soon
as the current value is not a dict or lacks the key; never raises. -/
def safe_get (v : JValue) (keys : List String) (d : JValue) : JValue :=
  match keys with
  | [] => v
  | k :: ks =>
    match v with
    | .obj m =>
      match jLookup m k with
      | some w => safe_get w ks d
      | none => d
    | _ => d

/-- The source descriptor every parse builds. -/
def sourceInfo : MetaSourceInfo :=
  { id := "hardcover"
    description := "Hardcover Books"
    link := "https://hardcover.app" }

/-- Hardcover._parse_title_url: the book page URL from the document slug,
or the fallback. -/
def parse_title_url (result : JValue) (url : String) :
    Except PyErr String := do
  let document ← pyGet result "document" (.obj [])
  let slug ← pyGet document "slug" (.str "")
  if truthy slug then
    pure ("https://hardcover.app/books/" ++ jToString slug)
  else
    pure url

/-- Hardcover._parse_edition_url: the edition page URL when the edition id
is truthy, or the fallback. -/
def parse_edition_url (result edition : JValue) (url : String) :
    Except PyErr String := do
  let eid ← pyGet edition "id" (.str "")
  let slug ← pyGet result "slug" (.str "")
  if truthy eid then
    pure ("https://hardcover.app/books/" ++ jToString slug ++ "/editions/"
      ++ jToString eid)
  else
    pure url

/-- Hardcover._parse_edition_authors: names of dict-shaped contributions
carrying a dict-shaped author with a name; the caller fallback when the
contributions are not a list, none qualify, or anything raises. -/
def parse_edition_authors (edition : JValue) (authors : List JValue) :
    List JValue :=
  match pyGet edition "contributions" (.arr []) with
  | .error _ => authors
  | .ok (.arr cs) =>
    let r := cs.filterMap (fun c =>
      match c with
      | .obj m =>
        match jLookup m "author" with
        | some (.obj am) => jLookup am "name"
        | _ => none
      | _ => none)
    if r.isEmpty then authors else r
  | .ok _ => authors

/-- Hardcover._parse_tags: the truthy tag members of dict-shaped
cached_tags items; the caller fallback when cached_tags is not a list,
none qualify, or anything raises. -/
def parse_tags (result : JValue) (tags : List JValue) : List JValue :=
  match pyGet result "cached_tags" (.arr []) with
  | .error _ => tags
  | .ok (.arr items) =>
    let r := items.filterMap (fun it =>
      match it with
      | .obj m =>
        match jLookup m "tag" with
        | some tv => if truthy tv then some tv else none
        | none => none
      | _ => none)
    if r.isEmpty then tags else r
  | .ok _ => tags

/-- Hardcover._parse_languages: a one-element list holding the display
name of the edition language code, or empty; get_language_name is the
external locale resolver, a parameter of the model. -/
def parse_languages (langName : String → JValue → String) (edition : JValue)
    (locale : String) : Except PyErr (List JValue) := do
  let lv ← pyGet edition "language" .null
  let iso ← pyGet (pyOr lv (.obj [])) "code3" (.str "")
  if truthy iso then
    pure [.str (langName locale iso)]
  else
    pure []

/-- Hardcover._parse_title_result: None when the hit carries no truthy
document or anything raises; otherwise the record with every field read
through the defaulting safe lookups. -/
def parse_title_result (result : JValue) (genericCover : String)
    (locale : String) : Option MetaRecord :=
  let core : Except PyErr (Option MetaRecord) := do
    let document := safe_get result ["document"] (.obj [])
    if !truthy document then
      pure none
    else do
      let seriesInfo := safe_get document ["featured_series"] (.obj [])
      let series := safe_get seriesInfo ["series_name"] (.str "")
      let seriesIndex := safe_get seriesInfo ["position"] (.str "")
      let idv := safe_get document ["id"] (.str "")
      let title := safe_get document ["title"] (.str "")
      let authors := safe_get document ["author_names"] (.arr [])
      let url ← parse_title_url result ""
      let imageData := safe_get document ["image"] (.obj [])
      let cover := safe_get imageData ["url"] (.str genericCover)
      let descr := safe_get document ["description"] (.str "")
      let published := safe_get document ["release_date"] (.str "")
      let tags := safe_get document ["genres"] (.arr [])
      let slug := safe_get document ["slug"] (.str "")
      pure (some
        { id := idv
          title := title
          authors := authors
          url := url
          source := sourceInfo
          series := series
          cover := cover
          description := descr
          publishedDate := published
          series_index := seriesIndex
          tags := tags
          identifiers := [("hardcover-id", idv), ("hardcover", slug)] })
  match core with
  | .ok o => o
  | .error _ => none

/-- The loop body of Hardcover._parse_edition_results: the record built
for one edition, fields read in the source order, idv being the book id
the loop head read once. -/
def parse_edition_one (langName : String → JValue → String) (idv : JValue)
    (result : JValue) (genericCover : String) (locale : String)
    (edition : JValue) : Except PyErr MetaRecord := do
      let title ← pyGet edition "title" (.str "")
      let authors := parse_edition_authors edition []
      let url ← parse_edition_url result edition ""
      let bs1 ← pyGet result "book_series" .null
      let bs1h ← pyIndex (pyOr bs1 (.arr [.obj []])) 0
      let seriesObj ← pyGet bs1h "series" (.obj [])
      let series ← pyGet seriesObj "name" (.str "")
      let imageV ← pyGet edition "image" .null
      let cover ← pyGet (pyOr imageV (.obj [])) "url" (.str genericCover)
      let descr ← pyGet result "description" (.str "")
      let publisherV ← pyGet edition "publisher" .null
      let publisher ← pyGet (pyOr publisherV (.obj [])) "name" (.str "")
      let published ← pyGet edition "release_date" (.str "")
      let bs2 ← pyGet result "book_series" .null
      let bs2h ← pyIndex (pyOr bs2 (.arr [.obj []])) 0
      let seriesIndex ← pyGet bs2h "position" (.str "")
      let tags := parse_tags result []
      let languages ← parse_languages langName edition locale
      let slug ← pyGet result "slug" (.str "")
      let eid ← pyGet edition "id" (.str "")
      let isbn10a ← pyGet edition "isbn_10" .null
      let isbnA ← pyGet edition "isbn_13" isbn10a
      let ids0 : List (String × JValue) :=
        [("hardcover-id", idv), ("hardcover", slug), ("hardcover-edition", eid),
          ("isbn", pyOr isbnA (.str ""))]
      let isbn10b ← pyGet edition "isbn_10" .null
      let isbnB ← pyGet edition "isbn_13" isbn10b
      let ids1 := if truthy isbnB then pyInsert ids0 "isbn" isbnB else ids0
      let rf ← pyGet edition "reading_format_id" .null
      let fmt :=
        if pyIsInt rf && (0 ≤ pyIntVal rf && pyIntVal rf < (FORMATS.length : Int))
        then FORMATS.getD (pyIntVal rf).toNat ""
        else ""
      pure
        { id := idv
          title := title
          authors := .arr authors
          url := url
          source := sourceInfo
          series := series
          cover := cover
          description := descr
          publishedDate := published
          series_index := seriesIndex
          tags := .arr tags
          identifiers := ids1
          publisher := publisher
          languages := languages
          format := some fmt }

/-- The for-loop of Hardcover._parse_edition_results: build one record
per edition in list order, appending to the accumulator; an error raised
for any edition aborts the loop. -/
def edition_loop (langName : String → JValue → String) (idv : JValue)
    (result : JValue) (genericCover : String) (locale : String) :
    List JValue → List MetaRecord → Except PyErr (List MetaRecord)
  | [], acc => .ok acc
  | edition :: rest, acc => do
    let r ← parse_edition_one langName idv result genericCover locale edition
    edition_loop langName idv result genericCover locale rest (acc ++ [r])

/-- Hardcover._parse_edition_results: one record per entry of
result["editions"], built by parse_edition_one in list order; an error
raised for any edition aborts the whole batch (the caller catches it and
returns empty). -/
def parse_edition_results (langName : String → JValue → String)
    (result : JValue) (genericCover : String) (locale : String) :
    Except PyErr (List MetaRecord) := do
  let idv ← pyGet result "id" (.str "")
  let editionsV ← pySubscript result "editions"
  let elems ← pyIterElems editionsV
  edition_loop langName idv result genericCover locale elems []

/-- The single HTTP operation a search issues: the title search template
with the raw query, or the edition template with the text after the
colon. -/
inductive SearchCall where
  | title (q : String)
  | edition (q : String)
deriving Repr, DecidableEq

/-- The search-side remote endpoint. -/
abbrev SearchRemote := SearchCall → RemoteResp

/-- What one Hardcover.search invocation produced: the records returned,
the component active flag afterwards, and the HTTP calls issued. -/
structure SearchOut where
  records : List MetaRecord
  active : Bool
  calls : List SearchCall
deriving Repr

/-- Hardcover.search: refuse when inactive; resolve the bearer token from
user, global configuration, then environment, deactivating and failing
with zero results when all are missing; issue the one search or edition
operation; swallow transport, status, JSON and GraphQL errors into an
empty result; then map the response, descending for a title search into
data.search.results.hits, string-decoding it when needed (jsonLoads is
the external JSON decoder), then into a hits member inside that value,
and keeping each hit that parses; any processing error again yields
empty. No branch raises to the caller. -/
def search (active : Bool) (userTok cfgTok envTok : Option String)
    (q genericCover locale : String)
    (jsonLoads : String → Except PyErr JValue)
    (langName : String → JValue → String)
    (remote : SearchRemote) : SearchOut :=
  if !active then ⟨[], active, []⟩
  else
    let token := pyOrStr (pyOrStr userTok cfgTok) envTok
    if !strTruthy token then ⟨[], false, []⟩
    else
      let editionSearch := ((pySplit q ':').headD "") == "hardcover-id"
      let callR : Except PyErr SearchCall :=
        if editionSearch then
          match (pySplit q ':').get? 1 with
          | some s => .ok (.edition s)
          | none => .error (.indexError "list index out of range")
        else .ok (.title q)
      match callR with
      | .error _ => ⟨[], true, []⟩
      | .ok call =>
        match remote call with
        | .netError _ => ⟨[], true, [call]⟩
        | .httpError _ => ⟨[], true, [call]⟩
        | .badJson => ⟨[], true, [call]⟩
        | .ok body =>
          match pyContains body "errors" with
          | .error _ => ⟨[], true, [call]⟩
          | .ok true => ⟨[], true, [call]⟩
          | .ok false =>
            match pyContains body "data" with
            | .error _ => ⟨[], true, [call]⟩
            | .ok false => ⟨[], true, [call]⟩
            | .ok true =>
              let res : Except PyErr (List MetaRecord) :=
                if editionSearch then do
                  let booksData := safe_get body ["data", "books"] (.arr [])
                  if truthy booksData then do
                    let result0 ← pyIndex booksData 0
                    parse_edition_results langName result0 genericCover locale
                  else
                    pure []
                else do
                  let raw :=
                    safe_get body ["data", "search", "results", "hits"] (.arr [])
                  let parsed :=
                    match raw with
                    | .str s =>
                      match jsonLoads s with
                      | .ok v => v
                      | .error _ => .arr []
                    | _ => raw
                  let hits := safe_get parsed ["hits"] (.arr [])
                  let elems ← pyIterElems hits
                  pure (elems.filterMap
                    (fun r => parse_title_result r genericCover locale))
              match res with
              | .error _ => ⟨[], true, [call]⟩
              | .ok val => ⟨val, true, [call]⟩

end Hardcover

/-
Test fixtures: concrete remote bodies and JSON values used to instantiate
the theorems below. These encode responses in the shapes the GraphQL
schema and the user-book fragment of the source produce.
-/

/-- A remote that answers every call with an empty JSON object. -/
def remoteTrivial : Remote := fun _ => .ok (.obj [])

/-- A read-session object in the shape of the user-book fragment, with no
finish date (an open session). -/
def mkRead (rid : Int) (startedAt : String) (pp : Int) : JValue :=
  .obj [("id", .num rid), ("started_at", .str startedAt),
        ("finished_at", .null), ("edition_id", .null),
        ("progress_pages", .num pp)]

/-- A user-book object in the shape of the user-book fragment. -/
def mkUserBook (ubid statusId bid : Int) (slug title : String)
    (eid pages : Int) (reads : List JValue) : JValue :=
  .obj [("id", .num ubid), ("status_id", .num statusId),
        ("book_id", .num bid),
        ("book", .obj [("slug", .str slug), ("title", .str title)]),
        ("edition", .obj [("id", .num eid), ("pages", .num pages)]),
        ("user_book_reads", .arr reads)]

/-- A get_user_book response body holding the given user-book list. -/
def lookupBody (ub : List JValue) : JValue :=
  .obj [("data", .obj [("me", .arr [.obj [("user_books", .arr ub)]])])]

/-- A mutation response body with an empty data payload. -/
def okEmptyBody : JValue := .obj [("data", .obj [])]

/-- An insert_user_book response whose user_book is null: the remote
accepted the mutation but returned no user-book (a failed creation). -/
def insertUserBookNullBody : JValue :=
  .obj [("data", .obj [("insert_user_book",
    .obj [("error", .null), ("user_book", .null)])])]

/-- A successful insert_user_book_read response body. -/
def insertReadOkBody : JValue :=
  .obj [("data", .obj [("insert_user_book_read",
    .obj [("error", .null), ("user_book_read", .obj [])])])]

/-- A get_book_id response with one book and no editions. -/
def bookIdBody (bid : Int) : JValue :=
  .obj [("data", .obj [("books", .arr [.obj [("id", .num bid)]])])]

/-- A get_book_id response with one book and one matching edition. -/
def bookIdEdBody (bid eid : Int) : JValue :=
  .obj [("data", .obj [("books", .arr
    [.obj [("id", .num bid), ("editions", .arr [.obj [("id", .num eid)]])]])])]

namespace Hardcover

/-- An external JSON decoder that fails on every string. -/
def jsonLoadsNone : String → Except PyErr JValue :=
  fun _ => .error (.valueError "not json")

/-- An external locale resolver rendering the code itself. -/
def langNameStr : String → JValue → String := fun _ v => jToString v

/-- A well-formed title-search hit: a truthy document with id, title, slug
and authors, exactly what _parse_title_result consumes. -/
def goodHit (i : Int) (slug t : String) : JValue :=
  .obj [("document", .obj [("id", .num i), ("title", .str t),
        ("slug", .str slug), ("author_names", .arr [.str "A"])])]

/-- A title-search response whose data.search.results.hits is the
structured list of hits itself. -/
def directHitsBody (hits : List JValue) : JValue :=
  .obj [("data", .obj [("search", .obj [("results",
    .obj [("hits", .arr hits)])])])]

/-- A title-search response whose data.search.results.hits is an object
carrying the hit list under a further hits member. -/
def innerHitsBody (hits : List JValue) : JValue :=
  .obj [("data", .obj [("search", .obj [("results",
    .obj [("hits", .obj [("hits", .arr hits)])])])])]

/-- A title-search response whose data.search.results.hits is a quoted
string to be decoded. -/
def strHitsBody (s : String) : JValue :=
  .obj [("data", .obj [("search", .obj [("results",
    .obj [("hits", .str s)])])])]

/-- An edition object with the given edition id and reading_format_id. -/
def mkEdition (eid : Int) (rf : JValue) : JValue :=
  .obj [("id", .num eid), ("title", .str "T"), ("reading_format_id", rf)]

/-- The single book object of an edition-search response, with the given
edition list. -/
def editionResult (eds : List JValue) : JValue :=
  .obj [("id", .num 7), ("slug", .str "dune"), ("editions", .arr eds)]

/-- An edition-search response with one book carrying the given edition
list. -/
def editionBody (eds : List JValue) : JValue :=
  .obj [("data", .obj [("books", .arr [editionResult eds])])]

/-- The reading-format table of claim C6 as amended: written from the
claim text, to be compared against the code lookup. Index 1, and a
boolean true (which Python int-checks treat as index 1), give Physical
Book; index 4 gives E-Book; every other value gives the empty string. -/
def claimedFormat (rf : JValue) : String :=
  if jEqInt rf 1 then "Physical Book"
  else if jEqInt rf 4 then "E-Book"
  else ""

/-- The reading-format table exactly as claim C6 words it: index 1 gives
Physical Book, index 4 gives E-Book, and every other index, and every
missing or non-numeric value, gives the empty string. Written from the
claim text, to be compared against the code lookup. -/
def claimFormatOriginal : JValue → String
  | .num 1 => "Physical Book"
  | .num 4 => "E-Book"
  | _ => ""

/-- The record parse_edition_one builds for mkEdition 5 rf inside any
editionResult book object; its format field carries the code lookup of
the given reading_format_id. -/
def fixtureRecord (gc : String) (rf : JValue) : MetaRecord :=
  { id := .num 7
    title := .str "T"
    authors := .arr []
    url := "https://hardcover.app/books/dune/editions/5"
    source := sourceInfo
    series := .str ""
    cover := .str gc
    description := .str ""
    publishedDate := .str ""
    series_index := .str ""
    tags := .arr []
    identifiers := [("hardcover-id", .num 7), ("hardcover", .str "dune"),
      ("hardcover-edition", .num 5), ("isbn", .str "")]
    publisher := .str ""
    languages := []
    format := some
      (if pyIsInt rf && (0 ≤ pyIntVal rf && pyIntVal rf < (FORMATS.length : Int))
       then FORMATS.getD (pyIntVal rf).toNat ""
       else "") }

/-- A response outcome on which the source is specified to produce zero
records: a transport error, a non-2xx status, an undecodable body, or a
body whose top-level errors membership test does not come back false
(present, or not testable on a non-container body). -/
def respFails : RemoteResp → Bool
  | .netError _ => true
  | .httpError _ => true
  | .badJson => true
  | .ok body =>
    match pyContains body "errors" with
    | .ok false => false
    | _ => true

end Hardcover

/-
Theorems. General lemmas first, then one theorem per claim (with its
witness or counterexample).
-/

theorem roundHalfToEven_intCast (n : Int) : roundHalfToEven (n : Rat) = n := by
  unfold roundHalfToEven
  rw [Int.floor_intCast]
  norm_num

/-- Claim C4: with an existing user-book at status Read (3) and
progress_percent 100, update_reading_progress returns after the single
user-book lookup query: the trace is exactly that one query, which is not
a mutation, so zero mutation calls are issued and remote state is
untouched. -/
theorem claim4_theorem (remote : Remote) (privacy : JValue) (today : String)
    (bid ubid eid pages : Int) (slug title : String) (reads : List JValue)
    (h1 : remote (.userBookById (.num bid))
      = .ok (lookupBody [mkUserBook ubid 3 bid slug title eid pages reads])) :
    HardcoverClient.update_reading_progress remote privacy today
        (.dict [("hardcover-id", .num bid)]) 100
      = (.ok (), [.userBookById (.num bid)])
    ∧ Call.isMutation (.userBookById (.num bid)) = false := by
  constructor
  · simp [HardcoverClient.update_reading_progress,
      HardcoverClient.parse_identifiers, HardcoverClient.filterIds,
      HardcoverClient.idHas, HardcoverClient.idGet,
      HardcoverClient.get_user_book, HardcoverClient.execute, h1, lookupBody,
      mkUserBook, jLookup, pyGet, pyIndex, pyFirst, pyContains, truthy,
      jEqInt, PyM.bind, PyM.lift, JValue.isNull, pyStartsWith,
      Except.instMonad, Except.bind, bind, pure, Except.pure]
  · rfl

theorem claim4_witness :
    HardcoverClient.update_reading_progress
        (fun c =>
          match c with
          | .userBookById (.num 7) =>
            .ok (lookupBody [mkUserBook 55 3 7 "dune" "Dune" 9 200 []])
          | _ => .ok (.obj []))
        (.num 1) "2026-10-12" (.dict [("hardcover-id", .num 7)]) 100
      = (.ok (), [.userBookById (.num 7)])
    ∧ Call.isMutation (.userBookById (.num 7)) = false :=
  claim4_theorem _ (.num 1) "2026-10-12" 7 55 9 200 "dune" "Dune" [] rfl

/-- Claim C2: when the lookup finds no user-book and the creation
mutation comes back without one (user_book null), the call aborts with no
page-level and no status-change mutation ever issued: the trace is
exactly the lookup query followed by the one insert_user_book mutation,
and the call raises (the source crashes on the logging lookup against the
missing record before its explicit None guard, which aborts it all the
same). -/
theorem claim2_theorem (remote : Remote) (privacy : JValue) (today : String)
    (bid p : Int)
    (h1 : remote (.userBookById (.num bid)) = .ok (lookupBody []))
    (h2 : remote (.insertUserBook bid none 2 privacy)
      = .ok insertUserBookNullBody) :
    HardcoverClient.update_reading_progress remote privacy today
        (.dict [("hardcover-id", .num bid)]) p
      = (.error (.attributeError "object has no attribute get"),
         [.userBookById (.num bid), .insertUserBook bid none 2 privacy])
    ∧ ([Call.userBookById (.num bid),
        Call.insertUserBook bid none 2 privacy].filter
          Call.isPageOrStatusWrite) = [] := by
  constructor
  · simp [HardcoverClient.update_reading_progress,
      HardcoverClient.parse_identifiers, HardcoverClient.filterIds,
      HardcoverClient.idHas, HardcoverClient.idGet,
      HardcoverClient.get_user_book, HardcoverClient.add_book,
      HardcoverClient.logTitle, HardcoverClient.execute, h1, h2, lookupBody,
      insertUserBookNullBody, jLookup, pyGet, pyInt, pyIndex, pyFirst,
      pyContains, truthy, jEqInt, PyM.bind, PyM.lift, JValue.isNull,
      pyStartsWith, Except.instMonad, Except.bind, bind, pure, Except.pure]
  · rfl

theorem claim2_witness :
    HardcoverClient.update_reading_progress
        (fun c =>
          match c with
          | .userBookById (.num 7) => .ok (lookupBody [])
          | .insertUserBook _ _ _ _ => .ok insertUserBookNullBody
          | _ => .ok (.obj []))
        (.num 1) "2026-10-12" (.dict [("hardcover-id", .num 7)]) 50
      = (.error (.attributeError "object has no attribute get"),
         [.userBookById (.num 7), .insertUserBook 7 none 2 (.num 1)])
    ∧ ([Call.userBookById (.num 7),
        Call.insertUserBook 7 none 2 (.num 1)].filter
          Call.isPageOrStatusWrite) = [] :=
  claim2_theorem _ (.num 1) "2026-10-12" 7 50 rfl rfl

/-- At full progress the computed page counter is the whole page count:
round(pages * (100 / 100)) = pages. -/
theorem roundPagesFull (pages : Int) :
    roundHalfToEven ((pages : Rat) * (((100 : Int) : Rat) / 100)) = pages := by
  norm_num [roundHalfToEven_intCast]

/-- Claim C3: at progress 100 on a user-book that is not yet Read, whose
edition has a positive page count and which has an open read-session, the
trace is exactly the lookup query, then the status-change mutation to
Read (3), then the read-session update mutation, whose finish date is
today: the transition to Read is issued strictly before the session
update, and the update closes the session at today. -/
theorem claim3_theorem (remote : Remote) (privacy : JValue) (today : String)
    (bid ubid eid pages rid pp sid : Int) (slug title startedAt : String)
    (hsid : sid ≠ 3) (hpages : pages ≠ 0)
    (h1 : remote (.userBookById (.num bid))
      = .ok (lookupBody [mkUserBook ubid sid bid slug title eid pages
          [mkRead rid startedAt pp]]))
    (h2 : remote (.updateUserBook (.num ubid) 3) = .ok okEmptyBody)
    (h3 : remote (.updateUserBookRead rid pages eid (.str startedAt)
        (some today)) = .ok okEmptyBody) :
    HardcoverClient.update_reading_progress remote privacy today
        (.dict [("hardcover-id", .num bid)]) 100
      = (.ok (), [.userBookById (.num bid),
          .updateUserBook (.num ubid) 3,
          .updateUserBookRead rid pages eid (.str startedAt) (some today)]) := by
  simp [HardcoverClient.update_reading_progress,
    HardcoverClient.parse_identifiers, HardcoverClient.filterIds,
    HardcoverClient.idHas, HardcoverClient.idGet,
    HardcoverClient.get_user_book, HardcoverClient.change_book_status,
    HardcoverClient.logTitle, HardcoverClient.execute, h1, h2, h3, lookupBody,
    okEmptyBody, mkUserBook, mkRead, jLookup, pyGet, pyInt, pyToRat, pyIndex,
    pyFirst, pyContains, truthy, jEqInt, PyM.bind, PyM.lift, JValue.isNull,
    pyStartsWith, hsid, hpages, roundPagesFull, roundHalfToEven_intCast,
    Except.instMonad, Except.bind, bind, pure, Except.pure]

theorem claim3_witness :
    (2 : Int) ≠ 3 ∧ (200 : Int) ≠ 0 ∧
    HardcoverClient.update_reading_progress
        (fun c =>
          match c with
          | .userBookById (.num 7) =>
            .ok (lookupBody [mkUserBook 55 2 7 "dune" "Dune" 9 200
              [mkRead 77 "2026-01-01" 50]])
          | _ => .ok okEmptyBody)
        (.num 1) "2026-10-12" (.dict [("hardcover-id", .num 7)]) 100
      = (.ok (), [.userBookById (.num 7),
          .updateUserBook (.num 55) 3,
          .updateUserBookRead 77 200 9 (.str "2026-01-01")
            (some "2026-10-12")]) :=
  ⟨by decide, by decide,
    claim3_theorem _ (.num 1) "2026-10-12" 7 55 9 200 77 50 2 "dune" "Dune"
      "2026-01-01" (by decide) (by decide) rfl rfl rfl⟩

/-- Claim C10: at progress 100 on a user-book that is not Read, whose
edition has a positive page count and an open read-session list that is
empty, the trace is exactly the lookup query followed by one
insert_user_book_read mutation whose start date is today and whose page
counter is the full page count; the mutation template carries no finish
date at all, and no status-change mutation appears in the trace, so the
user-book is never transitioned to Read and the new session stays open
despite 100 percent completion. -/
theorem claim10_theorem (remote : Remote) (privacy : JValue) (today : String)
    (bid ubid eid pages sid : Int) (slug title : String)
    (hsid : sid ≠ 3) (hpages : pages ≠ 0) (heid : eid ≠ 0)
    (h1 : remote (.userBookById (.num bid))
      = .ok (lookupBody [mkUserBook ubid sid bid slug title eid pages []]))
    (h2 : remote (.insertUserBookRead ubid pages (some eid) today)
      = .ok insertReadOkBody) :
    HardcoverClient.update_reading_progress remote privacy today
        (.dict [("hardcover-id", .num bid)]) 100
      = (.ok (), [.userBookById (.num bid),
          .insertUserBookRead ubid pages (some eid) today])
    ∧ ([Call.userBookById (.num bid),
        Call.insertUserBookRead ubid pages (some eid) today].filter
          Call.isStatusChange) = [] := by
  constructor
  · simp [HardcoverClient.update_reading_progress,
      HardcoverClient.parse_identifiers, HardcoverClient.filterIds,
      HardcoverClient.idHas, HardcoverClient.idGet,
      HardcoverClient.get_user_book, HardcoverClient.add_read,
      HardcoverClient.execute, h1, h2, lookupBody, insertReadOkBody,
      mkUserBook, jLookup, pyGet, pyInt, pyToRat, pyIndex, pyFirst,
      pyContains, truthy, jEqInt, PyM.bind, PyM.lift, JValue.isNull,
      pyStartsWith, hsid, hpages, heid, roundPagesFull, roundHalfToEven_intCast,
      Except.instMonad, Except.bind, bind, pure, Except.pure]
  · rfl

theorem claim10_witness :
    (1 : Int) ≠ 3 ∧ (200 : Int) ≠ 0 ∧ (9 : Int) ≠ 0 ∧
    HardcoverClient.update_reading_progress
        (fun c =>
          match c with
          | .userBookById (.num 7) =>
            .ok (lookupBody [mkUserBook 55 1 7 "dune" "Dune" 9 200 []])
          | _ => .ok insertReadOkBody)
        (.num 1) "2026-10-12" (.dict [("hardcover-id", .num 7)]) 100
      = (.ok (), [.userBookById (.num 7),
          .insertUserBookRead 55 200 (some 9) "2026-10-12"])
    ∧ ([Call.userBookById (.num 7),
        Call.insertUserBookRead 55 200 (some 9) "2026-10-12"].filter
          Call.isStatusChange) = [] :=
  ⟨by decide, by decide, by decide,
    claim10_theorem _ (.num 1) "2026-10-12" 7 55 9 200 1 "dune" "Dune"
      (by decide) (by decide) (by decide) rfl rfl⟩

/-- Claim C1 counterexample: for the input holding only an isbn, the
filtered set contains neither hardcover-id nor a hardcover slug and
resolution fails locally, yet update_reading_progress is not a no-op: the
filtered set is nonempty, so the code proceeds and issues the degenerate
user-book lookup query, contradicting the claim that no remote query is
issued. -/
theorem claim1_counterexample :
    (HardcoverClient.parse_identifiers remoteTrivial
        (.dict [("isbn", .str "9781234567890")])).2 = []
    ∧ (HardcoverClient.update_reading_progress remoteTrivial (.num 1)
        "2026-10-12" (.dict [("isbn", .str "9781234567890")]) 50).2
      = [Call.userBookNoKey] :=
  ⟨rfl, rfl⟩

/-- Claim C1 as amended: when the filtered identifier set is empty,
update_reading_progress is a no-op issuing no remote call at all; and
whenever the filtered set lacks both hardcover-id and a truthy hardcover
slug, identifier resolution itself fails without any remote call,
returning the partial set (though a nonempty such set still makes
update_reading_progress issue its user-book lookup, as the counterexample
shows). -/
theorem claim1_theorem :
    (∀ (remote : Remote) (privacy : JValue) (today : String)
        (input : HardcoverClient.IdentInput) (p : Int),
      HardcoverClient.filterIds input = [] →
      HardcoverClient.update_reading_progress remote privacy today input p
        = (.ok (), []))
    ∧ (∀ (remote : Remote) (input : HardcoverClient.IdentInput),
      HardcoverClient.idHas (HardcoverClient.filterIds input) "hardcover-id"
        = false →
      truthy (HardcoverClient.idGet (HardcoverClient.filterIds input)
        "hardcover") = false →
      HardcoverClient.parse_identifiers remote input
        = (.ok (HardcoverClient.filterIds input), [])) := by
  constructor
  · intro remote privacy today input p hf
    simp [HardcoverClient.update_reading_progress,
      HardcoverClient.parse_identifiers, hf, HardcoverClient.idHas,
      HardcoverClient.idGet, jLookup, truthy, PyM.bind, PyM.lift]
  · intro remote input h1 h2
    simp [HardcoverClient.parse_identifiers, h1, h2, PyM.lift]

theorem claim1_witness :
    HardcoverClient.update_reading_progress remoteTrivial (.num 1)
        "2026-10-12" (.dict [("title", .str "x")]) 50 = (.ok (), [])
    ∧ HardcoverClient.parse_identifiers remoteTrivial
        (.dict [("isbn", .str "12")]) = (.ok [("isbn", .str "12")], []) :=
  ⟨claim1_theorem.1 remoteTrivial (.num 1) "2026-10-12"
      (.dict [("title", .str "x")]) 50 rfl,
   claim1_theorem.2 remoteTrivial (.dict [("isbn", .str "12")]) rfl rfl⟩

/-- Claim C9: identifier resolution on a slug-only filtered set issues
exactly one remote round trip and populates hardcover-id from the result,
together with hardcover-edition when a 13-digit isbn is present and an
edition matched; and with the remote a fixed mapping (unchanged remote
state), running it twice on the same input gives the same output, which
the pure embedding renders definitional. -/
theorem claim9_theorem :
    (∀ (remote : Remote) (input : HardcoverClient.IdentInput)
        (slug : String) (bid : Int),
      HardcoverClient.filterIds input = [("hardcover", .str slug)] →
      slug ≠ "" →
      remote (.bookBySlug (.str slug)) = .ok (bookIdBody bid) →
      HardcoverClient.parse_identifiers remote input
        = (.ok [("hardcover", .str slug), ("hardcover-id", .num bid)],
           [.bookBySlug (.str slug)]))
    ∧ (∀ (remote : Remote) (input : HardcoverClient.IdentInput)
        (slug isbn : String) (bid eid : Int),
      HardcoverClient.filterIds input
        = [("hardcover", .str slug), ("isbn", .str isbn)] →
      slug ≠ "" → isbn.length = 13 →
      remote (.bookBySlugIsbn (.str slug) (.str isbn))
        = .ok (bookIdEdBody bid eid) →
      HardcoverClient.parse_identifiers remote input
        = (.ok [("hardcover", .str slug), ("isbn", .str isbn),
            ("hardcover-id", .num bid), ("hardcover-edition", .num eid)],
           [.bookBySlugIsbn (.str slug) (.str isbn)]))
    ∧ (∀ (remote : Remote) (input : HardcoverClient.IdentInput),
      HardcoverClient.parse_identifiers remote input
        = HardcoverClient.parse_identifiers remote input) := by
  refine ⟨?_, ?_, fun _ _ => rfl⟩
  · intro remote input slug bid hf hs hr
    simp [HardcoverClient.parse_identifiers, hf, HardcoverClient.idHas,
      HardcoverClient.idGet, HardcoverClient.get_book_id,
      HardcoverClient.execute, hr, bookIdBody, jLookup, pyGet, pyIndex,
      pyLen, pyContains, pySubscript, truthy, pyInsert, JValue.isNull,
      PyM.bind, PyM.lift, hs,
      Except.instMonad, Except.bind, bind, pure, Except.pure]
  · intro remote input slug isbn bid eid hf hs hlen hr
    have hne : isbn ≠ "" := by
      intro h
      subst h
      simp at hlen
    simp [HardcoverClient.parse_identifiers, hf, HardcoverClient.idHas,
      HardcoverClient.idGet, HardcoverClient.get_book_id,
      HardcoverClient.execute, hr, bookIdEdBody, jLookup, pyGet, pyIndex,
      pyLen, pyContains, pySubscript, truthy, pyInsert, JValue.isNull,
      PyM.bind, PyM.lift, hs, hne, hlen,
      Except.instMonad, Except.bind, bind, pure, Except.pure]

theorem claim9_witness :
    HardcoverClient.parse_identifiers
        (fun c =>
          match c with
          | .bookBySlug _ => .ok (bookIdBody 7)
          | .bookBySlugIsbn _ _ => .ok (bookIdEdBody 7 9)
          | _ => .ok (.obj []))
        (.dict [("hardcover", .str "dune")])
      = (.ok [("hardcover", .str "dune"), ("hardcover-id", .num 7)],
         [.bookBySlug (.str "dune")])
    ∧ HardcoverClient.parse_identifiers
        (fun c =>
          match c with
          | .bookBySlug _ => .ok (bookIdBody 7)
          | .bookBySlugIsbn _ _ => .ok (bookIdEdBody 7 9)
          | _ => .ok (.obj []))
        (.dict [("hardcover", .str "dune"), ("isbn", .str "9781234567890")])
      = (.ok [("hardcover", .str "dune"), ("isbn", .str "9781234567890"),
          ("hardcover-id", .num 7), ("hardcover-edition", .num 9)],
         [.bookBySlugIsbn (.str "dune") (.str "9781234567890")]) :=
  ⟨claim9_theorem.1 _ (.dict [("hardcover", .str "dune")]) "dune" 7 rfl
      (by simp) rfl,
   claim9_theorem.2.1 _
      (.dict [("hardcover", .str "dune"), ("isbn", .str "9781234567890")])
      "dune" "9781234567890" 7 9 rfl (by simp) rfl rfl⟩

/-- Claim C5 counterexample: a title-search response whose
data.search.results.hits is the structured list of hits itself yields
zero records, although its one hit is well-formed (it parses to a record
on its own): the code descends a second time into a hits member inside
that value, so the claimed one-record-per-well-formed-hit mapping fails
on this response. -/
theorem claim5_counterexample :
    (Hardcover.search true (some "tok") none none "dune" "" "en"
        Hardcover.jsonLoadsNone Hardcover.langNameStr
        (fun _ => .ok (Hardcover.directHitsBody
          [Hardcover.goodHit 1 "dune" "Dune"]))).records = []
    ∧ (Hardcover.parse_title_result (Hardcover.goodHit 1 "dune" "Dune")
        "" "en").isSome = true :=
  ⟨rfl, rfl⟩

/-- Claim C5 as amended: a title search descends into
data.search.results.hits, decoding it when it arrives as a quoted JSON
string (falling back to empty on decode failure), and then descends once
more into a hits member inside that value; each element of that inner
list is mapped independently, one record per hit that parses, and a
malformed hit is skipped without suppressing the others — the result is
exactly the filterMap of the per-hit parser over the inner list, for the
structured and the string-delivered shape alike. -/
theorem claim5_theorem :
    (∀ (hits : List JValue) (tok : String) (cfg env : Option String)
        (q gc lo : String) (loads : String → Except PyErr JValue)
        (lang : String → JValue → String) (remote : Hardcover.SearchRemote),
      tok ≠ "" →
      ((pySplit q ':').headD "" == "hardcover-id") = false →
      remote (.title q) = .ok (Hardcover.innerHitsBody hits) →
      Hardcover.search true (some tok) cfg env q gc lo loads lang remote
        = ⟨hits.filterMap (fun h => Hardcover.parse_title_result h gc lo),
           true, [.title q]⟩)
    ∧ (∀ (hits : List JValue) (s tok : String) (cfg env : Option String)
        (q gc lo : String) (loads : String → Except PyErr JValue)
        (lang : String → JValue → String) (remote : Hardcover.SearchRemote),
      tok ≠ "" →
      ((pySplit q ':').headD "" == "hardcover-id") = false →
      remote (.title q) = .ok (Hardcover.strHitsBody s) →
      loads s = .ok (.obj [("hits", .arr hits)]) →
      Hardcover.search true (some tok) cfg env q gc lo loads lang remote
        = ⟨hits.filterMap (fun h => Hardcover.parse_title_result h gc lo),
           true, [.title q]⟩) := by
  constructor
  · intro hits tok cfg env q gc lo loads lang remote htok hq hr
    simp at hq
    simp [Hardcover.search, pyOrStr, strTruthy, htok, hq, hr,
      Hardcover.innerHitsBody, Hardcover.safe_get, jLookup, pyContains,
      pyIterElems, Except.instMonad, Except.bind, bind, pure, Except.pure]
  · intro hits s tok cfg env q gc lo loads lang remote htok hq hr hloads
    simp at hq
    simp [Hardcover.search, pyOrStr, strTruthy, htok, hq, hr, hloads,
      Hardcover.strHitsBody, Hardcover.safe_get, jLookup, pyContains,
      pyIterElems, Except.instMonad, Except.bind, bind, pure, Except.pure]

theorem claim5_witness :
    Hardcover.search true (some "tok") none none "dune" "" "en"
        Hardcover.jsonLoadsNone Hardcover.langNameStr
        (fun _ => .ok (Hardcover.innerHitsBody
          [Hardcover.goodHit 1 "dune" "Dune", .str "junk",
           Hardcover.goodHit 2 "lotr" "LOTR"]))
      = ⟨[Hardcover.goodHit 1 "dune" "Dune", .str "junk",
          Hardcover.goodHit 2 "lotr" "LOTR"].filterMap
            (fun h => Hardcover.parse_title_result h "" "en"),
         true, [.title "dune"]⟩
    ∧ Hardcover.search true (some "tok") none none "dune" "" "en"
        (fun s =>
          if s = "PAYLOAD" then
            .ok (.obj [("hits", .arr [Hardcover.goodHit 3 "x" "X"])])
          else .error (.valueError "bad"))
        Hardcover.langNameStr
        (fun _ => .ok (Hardcover.strHitsBody "PAYLOAD"))
      = ⟨[Hardcover.goodHit 3 "x" "X"].filterMap
            (fun h => Hardcover.parse_title_result h "" "en"),
         true, [.title "dune"]⟩ :=
  ⟨claim5_theorem.1 _ "tok" none none "dune" "" "en" Hardcover.jsonLoadsNone
      Hardcover.langNameStr _ (by simp) (by decide) rfl,
   claim5_theorem.2 [Hardcover.goodHit 3 "x" "X"] "PAYLOAD" "tok" none none
      "dune" "" "en" _ Hardcover.langNameStr _ (by simp) (by decide) rfl
      (by simp)⟩

/-- Claim C7: whenever the one HTTP operation a search issues comes back
as a transport error, a non-2xx status, an undecodable body, or a body
carrying a GraphQL errors array, search returns the empty record list;
and the embedding of search is a total function — every Python handler
ends in the catch-all except clause the model mirrors — so no exception
reaches the caller. -/
theorem claim7_theorem (active : Bool) (u c e : Option String)
    (q gc lo : String) (loads : String → Except PyErr JValue)
    (lang : String → JValue → String) (remote : Hardcover.SearchRemote)
    (h : ∀ call, Hardcover.respFails (remote call) = true) :
    (Hardcover.search active u c e q gc lo loads lang remote).records
      = [] := by
  simp only [Hardcover.search]
  split
  · rfl
  · split
    · rfl
    · split
      · rfl
      · next call hcall =>
        have hfail := h call
        rcases hrc : remote call with m | code | _ | body
        · simp
        · simp
        · simp
        · rw [hrc] at hfail
          rcases hpc : pyContains body "errors" with e2 | b
          · simp [hpc]
          · cases b
            · simp [Hardcover.respFails, hpc] at hfail
            · simp [hpc]

theorem claim7_witness :
    (Hardcover.search true (some "tok") none none "dune" "" "en"
        Hardcover.jsonLoadsNone Hardcover.langNameStr
        (fun _ => .netError "connection refused")).records = []
    ∧ (Hardcover.search true (some "tok") none none "dune" "" "en"
        Hardcover.jsonLoadsNone Hardcover.langNameStr
        (fun _ => .httpError 500)).records = []
    ∧ (Hardcover.search true (some "tok") none none "dune" "" "en"
        Hardcover.jsonLoadsNone Hardcover.langNameStr
        (fun _ => .badJson)).records = []
    ∧ (Hardcover.search true (some "tok") none none "dune" "" "en"
        Hardcover.jsonLoadsNone Hardcover.langNameStr
        (fun _ => .ok (.obj [("errors", .arr [])]))).records = [] :=
  ⟨claim7_theorem true (some "tok") none none "dune" "" "en"
      Hardcover.jsonLoadsNone Hardcover.langNameStr _ (fun _ => rfl),
   claim7_theorem true (some "tok") none none "dune" "" "en"
      Hardcover.jsonLoadsNone Hardcover.langNameStr _ (fun _ => rfl),
   claim7_theorem true (some "tok") none none "dune" "" "en"
      Hardcover.jsonLoadsNone Hardcover.langNameStr _ (fun _ => rfl),
   claim7_theorem true (some "tok") none none "dune" "" "en"
      Hardcover.jsonLoadsNone Hardcover.langNameStr _ (fun _ => rfl)⟩

/-- Claim C8: with no bearer token available from the per-user setting,
the global configuration or the environment, a search on an active
component returns zero records, flips the component inactive, and issues
no HTTP call; and once inactive, any search returns the empty list with
no HTTP call and leaves the component inactive — the inactive state is
absorbing, so every subsequent call for the component lifetime refuses
without network access. -/
theorem claim8_theorem :
    (∀ (u c e : Option String) (q gc lo : String)
        (loads : String → Except PyErr JValue)
        (lang : String → JValue → String) (remote : Hardcover.SearchRemote),
      strTruthy u = false → strTruthy c = false → strTruthy e = false →
      Hardcover.search true u c e q gc lo loads lang remote
        = ⟨[], false, []⟩)
    ∧ (∀ (u c e : Option String) (q gc lo : String)
        (loads : String → Except PyErr JValue)
        (lang : String → JValue → String) (remote : Hardcover.SearchRemote),
      Hardcover.search false u c e q gc lo loads lang remote
        = ⟨[], false, []⟩) := by
  constructor
  · intro u c e q gc lo loads lang remote hu hc he
    simp [Hardcover.search, pyOrStr, hu, hc, he]
  · intro u c e q gc lo loads lang remote
    rfl

theorem claim8_witness :
    Hardcover.search true none (some "") none "dune" "" "en"
        Hardcover.jsonLoadsNone Hardcover.langNameStr
        (fun _ => .ok (.obj [])) = ⟨[], false, []⟩
    ∧ Hardcover.search false (some "tok") none none "dune" "" "en"
        Hardcover.jsonLoadsNone Hardcover.langNameStr
        (fun _ => .ok (.obj [])) = ⟨[], false, []⟩ :=
  ⟨claim8_theorem.1 none (some "") none "dune" "" "en"
      Hardcover.jsonLoadsNone Hardcover.langNameStr _ rfl rfl rfl,
   claim8_theorem.2 (some "tok") none none "dune" "" "en"
      Hardcover.jsonLoadsNone Hardcover.langNameStr _⟩

/-- The code reading-format lookup agrees with the amended claim table on
every JSON value for reading_format_id. -/
theorem formatLookup_eq_claimed (rf : JValue) :
    (if pyIsInt rf
        && (0 ≤ pyIntVal rf
            && pyIntVal rf < (Hardcover.FORMATS.length : Int))
      then Hardcover.FORMATS.getD (pyIntVal rf).toNat ""
      else "")
    = Hardcover.claimedFormat rf := by
  cases rf with
  | null => rfl
  | str s => rfl
  | arr l => rfl
  | obj m => rfl
  | bool b => cases b <;> rfl
  | num n =>
    by_cases h1 : n = 1
    · subst h1
      rfl
    · by_cases h4 : n = 4
      · subst h4
        rfl
      · have hrhs : Hardcover.claimedFormat (.num n) = "" := by
          simp [Hardcover.claimedFormat, jEqInt, h1, h4]
        rw [hrhs]
        rcases Decidable.em (0 ≤ n ∧ n < 5) with hin | hout
        · have hc : n = 0 ∨ n = 2 ∨ n = 3 := by omega
          rcases hc with h | h | h <;> subst h <;> rfl
        · have hlen : ((Hardcover.FORMATS.length : Nat) : Int) = 5 := by
            norm_num [Hardcover.FORMATS]
          have hF : (pyIsInt (JValue.num n)
              && (0 ≤ pyIntVal (JValue.num n)
                  && pyIntVal (JValue.num n)
                    < (Hardcover.FORMATS.length : Int))) = false := by
            rw [hlen]
            rcases not_and_or.mp hout with h | h
            · simp [pyIsInt, pyIntVal, h]
            · simp [pyIsInt, pyIntVal, h]
          rw [hF]
          simp

/-- parse_edition_one on the mkEdition fixture inside any editionResult
book object reduces to the one fixture record. -/
theorem parse_edition_one_fixture (lang : String → JValue → String)
    (gc lo : String) (rf : JValue) (eds : List JValue) :
    Hardcover.parse_edition_one lang (.num 7) (Hardcover.editionResult eds)
        gc lo (Hardcover.mkEdition 5 rf)
      = .ok (Hardcover.fixtureRecord gc rf) :=
  rfl

/-- The format field of the fixture record is the amended claim table at
its reading-format value. -/
theorem fixtureRecord_format (gc : String) (rf : JValue) :
    (Hardcover.fixtureRecord gc rf).format
      = some (Hardcover.claimedFormat rf) :=
  congrArg some (formatLookup_eq_claimed rf)

/-- The edition loop of parse_edition_results over a list of mkEdition
fixtures appends one fixture record per reading-format value, in order. -/
theorem edition_loop_fixture (lang : String → JValue → String)
    (gc lo : String) (eds : List JValue) :
    ∀ (rfs : List JValue) (acc : List Hardcover.MetaRecord),
    Hardcover.edition_loop lang (.num 7) (Hardcover.editionResult eds) gc lo
        (rfs.map (Hardcover.mkEdition 5)) acc
      = .ok (acc ++ rfs.map (Hardcover.fixtureRecord gc)) := by
  intro rfs
  induction rfs with
  | nil =>
    intro acc
    simp [Hardcover.edition_loop]
  | cons rf rest ih =>
    intro acc
    rw [List.map_cons]
    show (do
      let r ← Hardcover.parse_edition_one lang (.num 7)
        (Hardcover.editionResult eds) gc lo (Hardcover.mkEdition 5 rf)
      Hardcover.edition_loop lang (.num 7) (Hardcover.editionResult eds) gc lo
        (rest.map (Hardcover.mkEdition 5)) (acc ++ [r])) = _
    rw [parse_edition_one_fixture]
    show Hardcover.edition_loop lang (.num 7) (Hardcover.editionResult eds)
        gc lo (rest.map (Hardcover.mkEdition 5))
        (acc ++ [Hardcover.fixtureRecord gc rf]) = _
    rw [ih]
    simp

/-- Claim C6 counterexample: an edition whose reading_format_id is the
JSON boolean true is mapped to Physical Book, because Python treats a
boolean as an int equal to 1 and indexes the table with it, while the
table of the claim sends every non-numeric value, true included, to the
empty string. -/
theorem claim6_counterexample :
    (Hardcover.search true (some "t") none none "hardcover-id:7" "" "en"
        Hardcover.jsonLoadsNone Hardcover.langNameStr
        (fun _ => .ok (Hardcover.editionBody
          [Hardcover.mkEdition 5 (.bool true)]))).records.map
        Hardcover.MetaRecord.format
      = [some "Physical Book"]
    ∧ Hardcover.claimFormatOriginal (.bool true) = "" :=
  ⟨rfl, rfl⟩

/-- Claim C6 as amended: for every edition in an edition-search response,
the format field is the fixed table lookup of the reading-format id,
with Python treating booleans as the integers 0 and 1: numeric index 1
and boolean true give Physical Book, numeric index 4 gives E-Book, and
every other value — 0, 2, 3, false, out-of-range, missing or otherwise
non-numeric — gives the empty string (the table claimedFormat, written
from the amended claim). -/
theorem claim6_theorem (rfs : List JValue) (tok gc lo : String)
    (loads : String → Except PyErr JValue) (lang : String → JValue → String)
    (remote : Hardcover.SearchRemote)
    (htok : tok ≠ "")
    (hr : remote (.edition "7")
      = .ok (Hardcover.editionBody (rfs.map (Hardcover.mkEdition 5)))) :
    (Hardcover.search true (some tok) none none "hardcover-id:7" gc lo loads
        lang remote).records.map Hardcover.MetaRecord.format
      = rfs.map (fun rf => some (Hardcover.claimedFormat rf)) := by
  have hs1 : (pySplit "hardcover-id:7" ':').head?.getD "" = "hardcover-id" := by
    decide
  have hs2 : (pySplit "hardcover-id:7" ':')[1]? = some "7" := by decide
  have hloop := edition_loop_fixture lang gc lo
    (rfs.map (Hardcover.mkEdition 5)) rfs []
  simp only [Hardcover.editionResult] at hloop
  simp [Hardcover.search, pyOrStr, strTruthy, htok, hs1, hs2, hr,
    Hardcover.editionBody, Hardcover.editionResult,
    Hardcover.parse_edition_results, Hardcover.safe_get, jLookup, pyContains,
    pyGet, pySubscript, pyIndex, pyIterElems, truthy, hloop,
    fixtureRecord_format, Except.instMonad, Except.bind, bind, pure,
    Except.pure, List.map_map, Function.comp]

theorem claim6_witness :
    (Hardcover.search true (some "t") none none "hardcover-id:7" "" "en"
        Hardcover.jsonLoadsNone Hardcover.langNameStr
        (fun _ => .ok (Hardcover.editionBody
          ([JValue.num 1, .num 4, .num 0, .num 2, .num 9, .null,
            .bool true].map (Hardcover.mkEdition 5))))).records.map
        Hardcover.MetaRecord.format
      = [JValue.num 1, .num 4, .num 0, .num 2, .num 9, .null,
         .bool true].map (fun rf => some (Hardcover.claimedFormat rf)) :=
  claim6_theorem [JValue.num 1, .num 4, .num 0, .num 2, .num 9, .null,
      .bool true] "t" "" "en" Hardcover.jsonLoadsNone Hardcover.langNameStr _
    (by decide) rfl

end Acw
